import Mathlib

/-!
Verification of the prompt-to-schedule extraction pipeline of the AIdo
backend: the relative-time resolver (`src/utils/timeUtils.ts`), the
extraction validator and orchestrator (`src/services/geminiService.ts`).

Modelling conventions:
* A JavaScript `Date` is an absolute instant, modelled as minutes since the
  Unix epoch (`Int`).  The code never observes seconds or milliseconds
  (`toTimeString().slice(0, 5)` and `toISOString().split('T')[0]` are
  minute- and day-granular, and every mutation adds whole minutes), so
  minute granularity is faithful.
* `Date.prototype.toTimeString` renders the instant in the host
  environment's local time zone, while `toISOString` renders it in UTC.
  The environment's UTC offset (in minutes, local = UTC + offset) is
  passed explicitly as a `tz` parameter; a fixed offset is assumed
  (daylight-saving transitions are not modelled).
* JavaScript regular expressions over the relevant patterns are modelled
  by direct matchers with ordered alternation and leftmost-first scanning,
  mirroring the backtracking behaviour of the source patterns.
  `toLowerCase` is modelled on the ASCII range (the patterns are ASCII).
-/

/-- ASCII lower-casing, modelling `String.prototype.toLowerCase` on the
ASCII range (the only range the patterns can match). -/
def jsToLower (c : Char) : Char :=
  if 65 ≤ c.toNat ∧ c.toNat ≤ 90 then Char.ofNat (c.toNat + 32) else c

/-- The JavaScript `\s` class (whitespace, incl. the Unicode space
separators and BOM). -/
def isJsWs (c : Char) : Bool :=
  decide (c.toNat = 32 ∨ (9 ≤ c.toNat ∧ c.toNat ≤ 13) ∨ c.toNat = 0xa0 ∨
    c.toNat = 0x1680 ∨ (0x2000 ≤ c.toNat ∧ c.toNat ≤ 0x200a) ∨
    c.toNat = 0x2028 ∨ c.toNat = 0x2029 ∨ c.toNat = 0x202f ∨
    c.toNat = 0x205f ∨ c.toNat = 0x3000 ∨ c.toNat = 0xfeff)

/-- The JavaScript `\d` class. -/
def isDigitCh (c : Char) : Bool :=
  decide (48 ≤ c.toNat ∧ c.toNat ≤ 57)

/-- The JavaScript `\w` class (`[A-Za-z0-9_]`), used for `\b` boundaries. -/
def isWordCh (c : Char) : Bool :=
  decide ((48 ≤ c.toNat ∧ c.toNat ≤ 57) ∨ (65 ≤ c.toNat ∧ c.toNat ≤ 90) ∨
    (97 ≤ c.toNat ∧ c.toNat ≤ 122) ∨ c.toNat = 95)

/-- `String.prototype.trim`: strip leading and trailing whitespace. -/
def jsTrim (l : List Char) : List Char :=
  ((l.dropWhile isJsWs).reverse.dropWhile isJsWs).reverse

/-- `String.prototype.toLowerCase` over a character list. -/
def lowerList (l : List Char) : List Char :=
  l.map jsToLower

/-- Greedy run of characters satisfying `p`: length consumed and rest. -/
def munchCount (p : Char → Bool) : List Char → Nat × List Char
  | [] => (0, [])
  | c :: cs =>
    if p c then
      let r := munchCount p cs
      (r.1 + 1, r.2)
    else (0, c :: cs)

/-- `p+` (one or more), greedy.  For the patterns in the source the
following atom is always from a class disjoint from `p`, so the greedy
match is the only possible one and no backtracking is needed. -/
def munch1 (p : Char → Bool) (l : List Char) : Option (Nat × List Char) :=
  let r := munchCount p l
  if r.1 = 0 then none else some r

/-- Case-insensitive literal: consume the pattern characters (given in
lower case), comparing input characters after `jsToLower`. -/
def litCI : List Char → List Char → Option (Nat × List Char)
  | [], l => some (0, l)
  | _ :: _, [] => none
  | p :: ps, c :: cs =>
    if jsToLower c = p then (litCI ps cs).map (fun r => (r.1 + 1, r.2))
    else none

/-- The unit alternation of the source patterns, in source order.  Regex
alternation is ordered, so e.g. `minute` is tried before `minutes`. -/
def unitAlts : List String :=
  ["minute", "minutes", "hour", "hours", "day", "days", "week", "weeks",
   "month", "months", "year", "years"]

/-- `\b` immediately after a match: end of input or a non-word character. -/
def bAfter : List Char → Bool
  | [] => true
  | c :: _ => !(isWordCh c)

/-- `\b` at a match start whose first pattern character is a word
character: beginning of input or a non-word previous character. -/
def bBefore : Option Char → Bool
  | none => true
  | some c => !(isWordCh c)

/-- Ordered unit alternation followed by `\b` (patterns 1 of the
detector/extractor): an alternative whose trailing boundary fails is
backtracked and the next alternative is tried. -/
def unitAltB : List String → List Char → Option (Nat × List Char)
  | [], _ => none
  | u :: us, l =>
    match litCI u.toList l with
    | some r => if bAfter r.2 then some r else unitAltB us l
    | none => unitAltB us l

/-- Match of `in\s+\d+\s+(unit…)\b` at the head of the input (the leading
`\b` is checked by the scanner); returns the matched length. -/
def matchP1At (l : List Char) : Option Nat := do
  let (n1, r1) ← litCI ("in".toList) l
  let (n2, r2) ← munch1 isJsWs r1
  let (n3, r3) ← munch1 isDigitCh r2
  let (n4, r4) ← munch1 isJsWs r3
  let (n5, _) ← unitAltB unitAlts r4
  pure (n1 + n2 + n3 + n4 + n5)

/-- Ordered unit alternation followed by `\s+from\s+now\b` (pattern 2):
the continuation participates in the backtracking over alternatives. -/
def unitThenFromNow : List String → List Char → Option (Nat × List Char)
  | [], _ => none
  | u :: us, l =>
    match (do
      let (n1, r1) ← litCI u.toList l
      let (n2, r2) ← munch1 isJsWs r1
      let (n3, r3) ← litCI ("from".toList) r2
      let (n4, r4) ← munch1 isJsWs r3
      let (n5, r5) ← litCI ("now".toList) r4
      if bAfter r5 then some (n1 + n2 + n3 + n4 + n5, r5) else none) with
    | some r => some r
    | none => unitThenFromNow us l

/-- Match of `\d+\s+(unit…)\s+from\s+now\b` at the head of the input. -/
def matchP2At (l : List Char) : Option Nat := do
  let (n1, r1) ← munch1 isDigitCh l
  let (n2, r2) ← munch1 isJsWs r1
  let (n3, _) ← unitThenFromNow unitAlts r2
  pure (n1 + n2 + n3)

/-- Match of `(tomorrow|next\s+week|next\s+month|next\s+year)\b` at the
head of the input, alternatives in source order. -/
def matchP3At (l : List Char) : Option Nat :=
  match (do
    let (n1, r1) ← litCI ("tomorrow".toList) l
    if bAfter r1 then some n1 else none) with
  | some n => some n
  | none =>
    let tryNext : List Char → Option Nat := fun w => do
      let (n1, r1) ← litCI ("next".toList) l
      let (n2, r2) ← munch1 isJsWs r1
      let (n3, r3) ← litCI w r2
      if bAfter r3 then some (n1 + n2 + n3) else none
    match tryNext ("week".toList) with
    | some n => some n
    | none =>
      match tryNext ("month".toList) with
      | some n => some n
      | none => tryNext ("year".toList)

/-- Leftmost-first scan: try the pattern at every position whose leading
word boundary holds, returning the matched substring (like `match[0]`). -/
def scanFor (matchAt : List Char → Option Nat) :
    Option Char → List Char → Option (List Char)
  | _, [] => none
  | prev, c :: cs =>
    match (if bBefore prev then matchAt (c :: cs) else none) with
    | some n => some ((c :: cs).take n)
    | none => scanFor matchAt (some c) cs

/-- `hasRelativeTimeExpression` (src/utils/timeUtils.ts:180): true when
any of the three patterns matches somewhere in the text. -/
def hasRelativeTimeExpression (text : String) : Bool :=
  (scanFor matchP1At none text.toList).isSome ||
  (scanFor matchP2At none text.toList).isSome ||
  (scanFor matchP3At none text.toList).isSome

/-- `extractRelativeTimeExpression` (src/utils/timeUtils.ts:195): the
matched substring of the first of the two quantified patterns that
matches; the qualitative third pattern is not tried here. -/
def extractRelativeTimeExpression (text : String) : Option String :=
  match scanFor matchP1At none text.toList with
  | some m => some (String.mk m)
  | none =>
    match scanFor matchP2At none text.toList with
    | some m => some (String.mk m)
    | none => none

/-- Ordered unit alternation with no trailing boundary (the parsing regex
of `calculateRelativeTime` has no `\b`), returning the captured unit.
Because alternation is ordered, `minute` wins over `minutes`, so the
capture is always the singular form. -/
def unitAltCapture : List String → List Char → Option String
  | [], _ => none
  | u :: us, l =>
    match litCI u.toList l with
    | some _ => some u
    | none => unitAltCapture us l

/-- Match of `in\s+(\d+)\s+(unit…)` at the head of the input, returning
the two captures (digit characters and unit). -/
def matchCalcAt (l : List Char) : Option (List Char × String) := do
  let (_, r1) ← litCI ("in".toList) l
  let (_, r2) ← munch1 isJsWs r1
  let (nd, r3) ← munch1 isDigitCh r2
  let (_, r4) ← munch1 isJsWs r3
  let u ← unitAltCapture unitAlts r4
  pure (r2.take nd, u)

/-- Leftmost scan for the parsing regex of `calculateRelativeTime`
(no word boundaries in that pattern). -/
def scanCalc : List Char → Option (List Char × String)
  | [] => none
  | c :: cs =>
    match matchCalcAt (c :: cs) with
    | some r => some r
    | none => scanCalc cs

/-- `parseInt` on a non-empty digit string. -/
def parseIntDigits (l : List Char) : Int :=
  l.foldl (fun a c => a * 10 + ((c.toNat : Int) - 48)) 0

/-- Days since 1970-01-01 to proleptic-Gregorian `(year, month, day)`;
the civil-from-days algorithm, with floor division throughout. -/
def civilFromDays (z0 : Int) : Int × Int × Int :=
  let z := z0 + 719468
  let era : Int := z / 146097
  let doe := z - era * 146097
  let yoe := (doe - doe / 1460 + doe / 36524 - doe / 146096) / 365
  let y := yoe + era * 400
  let doy := doe - (365 * yoe + yoe / 4 - yoe / 100)
  let mp := (5 * doy + 2) / 153
  let d := doy - (153 * mp + 2) / 5 + 1
  let m := mp + (if mp < 10 then 3 else -9)
  (y + (if m ≤ 2 then 1 else 0), m, d)

/-- Proleptic-Gregorian `(year, month, day)` to days since 1970-01-01.
Linear in `d`, which models the day-overflow normalisation of JavaScript
date setters (e.g. Feb 31 rolls into March). -/
def daysFromCivil (y0 m d : Int) : Int :=
  let y := y0 - (if m ≤ 2 then 1 else 0)
  let era : Int := y / 400
  let yoe := y - era * 400
  let mp := (m + 9) % 12
  let doy := (153 * mp + 2) / 5 + d - 1
  let doe := yoe * 365 + yoe / 4 - yoe / 100 + doy
  era * 146097 + doe - 719468

/-- A decimal digit character. -/
def digitCh (n : Int) : Char :=
  Char.ofNat (48 + n.toNat)

/-- Two-digit zero-padded rendering (fields in `00`–`99`). -/
def pad2 (n : Int) : String :=
  String.mk [digitCh ((n / 10) % 10), digitCh (n % 10)]

/-- Four-digit zero-padded rendering (years in `0000`–`9999`, which
covers every instant the development evaluates). -/
def pad4 (n : Int) : String :=
  String.mk [digitCh ((n / 1000) % 10), digitCh ((n / 100) % 10),
             digitCh ((n / 10) % 10), digitCh (n % 10)]

/-- `toISOString().split('T')[0]`: the UTC calendar date of an instant
(minutes since epoch), formatted `YYYY-MM-DD`. -/
def isoDateString (t : Int) : String :=
  let c := civilFromDays (t / 1440)
  pad4 c.1 ++ "-" ++ pad2 c.2.1 ++ "-" ++ pad2 c.2.2

/-- `toTimeString().slice(0, 5)`: the local wall-clock time of an
instant in an environment with UTC offset `tz` minutes, `HH:MM`. -/
def localTimeString (t tz : Int) : String :=
  let c := (t + tz) % 1440
  pad2 (c / 60) ++ ":" ++ pad2 (c % 60)

/-- The local wall-clock calendar date of an instant in an environment
with UTC offset `tz` minutes (the spec's "local wall-clock
representation" of the date). -/
def localDateString (t tz : Int) : String :=
  let c := civilFromDays ((t + tz) / 1440)
  pad4 c.1 ++ "-" ++ pad2 c.2.1 ++ "-" ++ pad2 c.2.2

/-- Build the instant (minutes since epoch) of a UTC calendar date and
wall-clock time. -/
def mkUTC (y m d hh mm : Int) : Int :=
  daysFromCivil y m d * 1440 + hh * 60 + mm

/-- The `{date, time}` pair of the time utilities. -/
structure TimeCalculation where
  date : String
  time : String
deriving DecidableEq

/-- `getCurrentDateTime` (src/utils/timeUtils.ts:215) at instant `t` in an
environment with offset `tz`: ISO (UTC) date and local `HH:MM` time. -/
def getCurrentDateTime (t tz : Int) : TimeCalculation :=
  ⟨isoDateString t, localTimeString t tz⟩

/-- `calculateRelativeTime` (src/utils/timeUtils.ts:116) at base instant
`base` in an environment with UTC offset `tz`.  The expression is
lower-cased and trimmed, scanned with `in\s+(\d+)\s+(unit…)`; on failure
the base instant's own rendering is returned; otherwise the amount is
added via the corresponding local-calendar setter and the result is
rendered with the UTC date and the local time, exactly as the source. -/
def calculateRelativeTime (relativeExpression : String) (base tz : Int) :
    TimeCalculation :=
  let lowerExpression := jsTrim (lowerList relativeExpression.toList)
  match scanCalc lowerExpression with
  | none => ⟨isoDateString base, localTimeString base tz⟩
  | some (digits, unit) =>
    let amount := parseIntDigits digits
    let localMin := base + tz
    let days := localMin / 1440
    let clock := localMin % 1440
    let c := civilFromDays days
    let y := c.1
    let m := c.2.1
    let d := c.2.2
    let target : Int :=
      match unit with
      | "minute" | "minutes" => base + amount
      | "hour" | "hours" => base + amount * 60
      | "day" | "days" => daysFromCivil y m (d + amount) * 1440 + clock - tz
      | "week" | "weeks" =>
        daysFromCivil y m (d + amount * 7) * 1440 + clock - tz
      | "month" | "months" =>
        let months0 := (m - 1) + amount
        daysFromCivil (y + months0 / 12) (months0 % 12 + 1) d * 1440 +
          clock - tz
      | "year" | "years" => daysFromCivil (y + amount) m d * 1440 + clock - tz
      | _ => base
    ⟨isoDateString target, localTimeString target tz⟩

/-- The candidate record (`ScheduleData`, src/types/index.ts).  The
validator receives the result of `JSON.parse`, in which any field may be
absent, so every field is optional here; `none` models an absent field.
`metadata` is an opaque key-value map. -/
structure ScheduleData where
  type : Option String
  title : Option String
  description : Option String
  date : Option String
  time : Option String
  duration : Option Int
  participants : Option (List String)
  location : Option String
  priority : Option String
  category : Option String
  metadata : Option (List (String × String))
deriving DecidableEq

/-- JavaScript truthiness of a possibly-absent string field
(`!data[field]`): absent and the empty string are falsy. -/
def truthy : Option String → Bool
  | none => false
  | some s => s != ""

/-- `validTypes` (src/services/geminiService.ts:160). -/
def validTypes : List String :=
  ["meeting", "reminder", "task", "appointment"]

/-- The valid priorities (src/services/geminiService.ts:167). -/
def validPriorities : List String :=
  ["low", "medium", "high"]

/-- The test of `/^\d{4}-\d{2}-\d{2}$/` (src/services/geminiService.ts:173). -/
def dateRegexTest (s : String) : Bool :=
  match s.toList with
  | [y1, y2, y3, y4, s1, m1, m2, s2, d1, d2] =>
    isDigitCh y1 && isDigitCh y2 && isDigitCh y3 && isDigitCh y4 &&
    s1 == '-' && isDigitCh m1 && isDigitCh m2 && s2 == '-' &&
    isDigitCh d1 && isDigitCh d2
  | _ => false

/-- The test of `/^\d{2}:\d{2}$/` (src/services/geminiService.ts:180). -/
def timeRegexTest (s : String) : Bool :=
  match s.toList with
  | [h1, h2, s1, m1, m2] =>
    isDigitCh h1 && isDigitCh h2 && s1 == ':' && isDigitCh m1 && isDigitCh m2
  | _ => false

/-- `validateScheduleData` (src/services/geminiService.ts:149).  Returns
the boolean result together with the `logger.error` lines emitted: the
required-field loop (in the order type, title, date, time), the type
enum, the priority enum (skipped when `priority` is falsy), the date
pattern and the time pattern, short-circuiting on the first failure. -/
def validateScheduleData (data : ScheduleData) : Bool × List String :=
  if !truthy data.type then (false, ["Missing required field: type"])
  else if !truthy data.title then (false, ["Missing required field: title"])
  else if !truthy data.date then (false, ["Missing required field: date"])
  else if !truthy data.time then (false, ["Missing required field: time"])
  else if !(validTypes.contains (data.type.getD "")) then
    (false, ["Invalid type: " ++ data.type.getD ""])
  else if truthy data.priority &&
      !(validPriorities.contains (data.priority.getD "")) then
    (false, ["Invalid priority: " ++ data.priority.getD ""])
  else if !(dateRegexTest (data.date.getD "")) then
    (false, ["Invalid date format: " ++ data.date.getD ""])
  else if !(timeRegexTest (data.time.getD "")) then
    (false, ["Invalid time format: " ++ data.time.getD ""])
  else (true, [])

/-- `postProcessScheduleData` (src/services/geminiService.ts:120) at
current instant `now` and environment offset `tz`: when the user prompt
contains a relative-time expression and one is extractable, the
candidate's date and time are overwritten with the resolver's result
(the source calls `calculateRelativeTime` with its default base, the
current instant); every other field is left untouched. -/
def postProcessScheduleData (scheduleData : ScheduleData)
    (userPrompt : String) (now tz : Int) : ScheduleData :=
  if hasRelativeTimeExpression userPrompt then
    match extractRelativeTimeExpression userPrompt with
    | some relativeExpression =>
      let calculatedTime := calculateRelativeTime relativeExpression now tz
      { scheduleData with
          date := some calculatedTime.date,
          time := some calculatedTime.time }
    | none => scheduleData
  else scheduleData

/-- The `AIResponse` record (src/types/index.ts). -/
structure AIResponse where
  success : Bool
  data : Option ScheduleData
  error : Option String
deriving DecidableEq

/-- The opening and closing curly-bracket characters. -/
def lbrace : Char := '\x7b'

/-- See `lbrace`. -/
def rbrace : Char := '\x7d'

/-- Longest prefix of the input ending at its last closing bracket, or
`none` when the input has no closing bracket. -/
def takeToLast : List Char → Option (List Char)
  | [] => none
  | c :: cs =>
    match takeToLast cs with
    | some t => some (c :: t)
    | none => if c = rbrace then some [c] else none

/-- The match of `/\x7b[\s\S]*\x7d/` (src/services/geminiService.ts:83)
over a character list: the span from the first opening bracket to the
last closing bracket after it.  A later opening bracket can never match
when the first one cannot, so the scan stops at the first. -/
def jsonMatchL : List Char → Option (List Char)
  | [] => none
  | c :: cs =>
    if c = lbrace then (takeToLast cs).map (fun t => c :: t)
    else jsonMatchL cs

/-- The `text.match(/\x7b[\s\S]*\x7d/)` step of `processSchedulePrompt`:
the greedy first-open-to-last-close span, or `none`. -/
def jsonMatch (text : String) : Option String :=
  (jsonMatchL text.toList).map String.mk

/-- Bracket-counting scan: consume until the depth returns to zero.
Helper of `firstBalancedSpan`. -/
def balancedScan : Nat → List Char → List Char → Option (List Char)
  | _, _, [] => none
  | depth, acc, c :: cs =>
    if c = lbrace then balancedScan (depth + 1) (c :: acc) cs
    else if c = rbrace then
      if depth = 1 then some (c :: acc).reverse
      else balancedScan (depth - 1) (c :: acc) cs
    else balancedScan depth (c :: acc) cs

/-- Recursive scan of `firstBalancedSpan`. -/
def firstBalancedGo : List Char → Option String
  | [] => none
  | c :: cs =>
    if c = lbrace then (balancedScan 1 [c] cs).map String.mk
    else firstBalancedGo cs

/-- Modelled from the spec: "locate the first balanced `{...}` JSON-like
object substring in the reply", via "a proper bracket-balancing scan"
(§4.4 step 3, §9).  Starts at the first opening bracket and ends where
the bracket depth first returns to zero. -/
def firstBalancedSpan (text : String) : Option String :=
  firstBalancedGo text.toList

/-- `processSchedulePrompt` (src/services/geminiService.ts:70) from the
model's reply text onward (the external model call is outside the
subsystem).  `parse` stands for the external `JSON.parse` on the matched
span, returning either a candidate record or the thrown error's message.
The `try`/`catch` of the source turns every thrown error into a
`success: false` response carrying the error's message. -/
def processSchedulePrompt (parse : String → Except String ScheduleData)
    (text userPrompt : String) (now tz : Int) : AIResponse :=
  match jsonMatch text with
  | none => ⟨false, none, some ("No valid JSON found in AI response")⟩
  | some jsonString =>
    match parse jsonString with
    | Except.error e => ⟨false, none, some e⟩
    | Except.ok scheduleData =>
      let processedData := postProcessScheduleData scheduleData userPrompt now tz
      if (validateScheduleData processedData).1 then
        ⟨true, some processedData, none⟩
      else ⟨false, none, some ("Invalid schedule data structure")⟩

/-- Is `pat` a prefix of the list? -/
def isSubPrefix : List Char → List Char → Bool
  | [], _ => true
  | _ :: _, [] => false
  | p :: ps, c :: cs => p == c && isSubPrefix ps cs

/-- Does `pat` occur contiguously in the list? -/
def hasSubstring : List Char → List Char → Bool
  | [], pat => isSubPrefix pat []
  | c :: cs, pat => isSubPrefix pat (c :: cs) || hasSubstring cs pat

/-- Does `sub` occur in `s`? -/
def containsSubstr (s sub : String) : Bool :=
  hasSubstring s.toList sub.toList

/-- A candidate whose `type` is outside the enumeration. -/
def candBirthday : ScheduleData :=
  ⟨some ("birthday"), some ("Party"), none, some ("2024-01-15"),
   some ("09:00"), none, none, none, none, none, none⟩

/-- A candidate with no `title`. -/
def candNoTitle : ScheduleData :=
  ⟨some ("meeting"), none, none, some ("2024-01-15"), some ("09:00"),
   none, none, none, none, none, none⟩

/-- A minimal valid candidate: the four required fields only. -/
def candMinimal : ScheduleData :=
  ⟨some ("meeting"), some ("x"), none, some ("2024-01-15"), some ("09:00"),
   none, none, none, none, none, none⟩

/-- The model reply whose JSON object is `candBirthday`. -/
def replyBirthday : String :=
  "\x7b\"type\":\"birthday\",\"title\":\"Party\",\"date\":\"2024-01-15\",\"time\":\"09:00\"\x7d"

/-- The model reply whose JSON object is `candNoTitle`. -/
def replyNoTitle : String :=
  "\x7b\"type\":\"meeting\",\"date\":\"2024-01-15\",\"time\":\"09:00\"\x7d"

/-- `JSON.parse` on the one span of `replyBirthday` (external builtin,
instantiated only at that span). -/
def parseStubBirthday (s : String) : Except String ScheduleData :=
  if s = replyBirthday then Except.ok candBirthday
  else Except.error "unexpected input"

/-- `JSON.parse` on the one span of `replyNoTitle`. -/
def parseStubNoTitle (s : String) : Except String ScheduleData :=
  if s = replyNoTitle then Except.ok candNoTitle
  else Except.error "unexpected input"

/-- A reply holding a well-formed object followed by further text with a
second object. -/
def replyTwoObjects : String :=
  "\x7b\"a\":1\x7d and \x7b\"b\":2\x7d"

/-- `JSON.parse` behaviour on the spans of `replyTwoObjects`: the first
balanced object parses, the greedy two-object span has trailing content
after the first object and throws. -/
def parseStubTwoObjects (s : String) : Except String ScheduleData :=
  if s = "\x7b\"a\":1\x7d" then Except.ok candMinimal
  else Except.error "Unexpected non-whitespace character after JSON"

/-- The text has some opening bracket strictly before some closing
bracket (an object-shaped substring, as far as the source's pattern is
concerned). -/
def hasBracePair (l : List Char) : Prop :=
  ∃ i j : Nat, i < j ∧ l.get? i = some lbrace ∧ l.get? j = some rbrace

/-- Claim C1.  The claim asserts that for `"in N minutes"` the returned
time is N minutes past the reference's clock time *and* the date carries
across midnight together with that clock.  The code renders the date with
`toISOString` (UTC) but the time with `toTimeString` (local), so in an
environment with a non-zero UTC offset the returned date does not follow
the local clock across midnight: at offset +120 (e.g. Africa/Cairo),
reference 2024-01-15T21:50Z — local wall clock 2024-01-15 23:50 — and
phrase "in 20 minutes", the code returns date 2024-01-15 with time 00:10,
while the claim requires date 2024-01-16.  (At offset 0 the claimed
behaviour does hold; the e.g. of the claim is the offset-0 instance.) -/
theorem c1_minutes_date_misses_local_midnight_carry :
    calculateRelativeTime "in 20 minutes" (mkUTC 2024 1 15 21 50) 120 =
      ⟨"2024-01-15", "00:10"⟩ ∧
    localDateString (mkUTC 2024 1 15 21 50) 120 = "2024-01-15" ∧
    localTimeString (mkUTC 2024 1 15 21 50) 120 = "23:50" ∧
    localDateString (mkUTC 2024 1 15 21 50 + 20) 120 = "2024-01-16" ∧
    (calculateRelativeTime "in 20 minutes" (mkUTC 2024 1 15 21 50) 120).date ≠
      localDateString (mkUTC 2024 1 15 21 50 + 20) 120 := by
  decide

/-- Claim C2.  The claim asserts that for `"in N days"` the returned date
is the reference's date plus N with the time unchanged, both fields being
derived from the local wall-clock representation of the resulting
instant.  The date is in fact derived from the UTC representation
(`toISOString`), only the time from the local one (`toTimeString`): at
offset +120, reference 2024-01-15T22:10Z — local wall clock 2024-01-16
00:10 — and phrase "in 1 day", the resulting instant (one calendar day
later, 2024-01-16T22:10Z) has local wall-clock representation 2024-01-17
00:10, yet the code returns date 2024-01-16: neither the local reference
date plus one, nor the local date of the result. -/
theorem c2_days_date_not_local_wall_clock :
    calculateRelativeTime "in 1 day" (mkUTC 2024 1 15 22 10) 120 =
      ⟨"2024-01-16", "00:10"⟩ ∧
    localDateString (mkUTC 2024 1 15 22 10) 120 = "2024-01-16" ∧
    localTimeString (mkUTC 2024 1 15 22 10) 120 = "00:10" ∧
    localDateString (mkUTC 2024 1 15 22 10 + 1440) 120 = "2024-01-17" ∧
    (calculateRelativeTime "in 1 day" (mkUTC 2024 1 15 22 10) 120).date ≠
      localDateString (mkUTC 2024 1 15 22 10 + 1440) 120 := by
  decide

/-- Claim C3.  `extractRelativeTimeExpression` does return phrases of the
form `"<N> <unit> from now"`, but the parsing regex of
`calculateRelativeTime` only recognises the `"in <N> <unit>"` form, so
every `"… from now"` phrase takes the parse-failure fallback and the
reference instant is returned unchanged: for the extractable phrase
"2 hours from now" at reference 2024-01-15T10:00Z the resolver returns
10:00 of the same day (the fallback) instead of 12:00, which the last
conjunct shows is what the recognised form "in 2 hours" would produce. -/
theorem c3_from_now_phrase_falls_back :
    extractRelativeTimeExpression "Call me 2 hours from now" =
      some ("2 hours from now") ∧
    hasRelativeTimeExpression "Call me 2 hours from now" = true ∧
    calculateRelativeTime "2 hours from now" (mkUTC 2024 1 15 10 0) 0 =
      getCurrentDateTime (mkUTC 2024 1 15 10 0) 0 ∧
    getCurrentDateTime (mkUTC 2024 1 15 10 0) 0 = ⟨"2024-01-15", "10:00"⟩ ∧
    calculateRelativeTime "in 2 hours" (mkUTC 2024 1 15 10 0) 0 =
      ⟨"2024-01-15", "12:00"⟩ := by
  decide

/-- Claim C9.  "Remind me tomorrow" is detected by
`hasRelativeTimeExpression` (third, qualitative pattern) but not
extractable; "in 2 hours" is detected, and
`extractRelativeTimeExpression` returns exactly the substring
"in 2 hours" from "Call me in 2 hours". -/
theorem c9_detect_vs_extract :
    hasRelativeTimeExpression "Remind me tomorrow" = true ∧
    extractRelativeTimeExpression "Remind me tomorrow" = none ∧
    hasRelativeTimeExpression "in 2 hours" = true ∧
    extractRelativeTimeExpression "Call me in 2 hours" =
      some ("in 2 hours") := by
  decide

/-- Claim C4.  Whenever the (lower-cased, trimmed) input contains no
`in <N> <unit>` match — i.e. it does not parse as an integer amount plus
recognised unit — `calculateRelativeTime` returns exactly the reference
instant's own rendering (the same pair `getCurrentDateTime` produces for
it) and, being a total function into `TimeCalculation`, never signals an
error: the fallback is silent. -/
theorem c4_parse_failure_silent_fallback :
    ∀ (s : String) (base tz : Int),
      scanCalc (jsTrim (lowerList s.toList)) = none →
      calculateRelativeTime s base tz = getCurrentDateTime base tz := by
  intro s base tz h
  unfold calculateRelativeTime getCurrentDateTime
  simp only [h]

/-- Witness for C4 at the concrete non-parsing input "hello world". -/
theorem c4_parse_failure_silent_fallback_witness :
    calculateRelativeTime "hello world" (mkUTC 2024 1 15 10 0) 60 =
      getCurrentDateTime (mkUTC 2024 1 15 10 0) 60 :=
  c4_parse_failure_silent_fallback "hello world" (mkUTC 2024 1 15 10 0) 60
    (by decide)

/-- Claim C8.  When the user prompt is detected to contain a
relative-time expression and one is extractable, `postProcessScheduleData`
replaces the candidate's `date` and `time` with the resolver's result for
the extracted phrase — regardless of the values the model produced — and
the resulting record agrees with the input on every other field (`type`,
`title`, `description`, `duration`, `participants`, `location`,
`priority`, `category`, `metadata`), which the record-update equation
expresses; the candidate is changed only at this single point. -/
theorem c8_relative_override :
    ∀ (d : ScheduleData) (userPrompt : String) (now tz : Int) (e : String),
      hasRelativeTimeExpression userPrompt = true →
      extractRelativeTimeExpression userPrompt = some e →
      postProcessScheduleData d userPrompt now tz =
        { d with date := some (calculateRelativeTime e now tz).date,
                 time := some (calculateRelativeTime e now tz).time } := by
  intro d userPrompt now tz e h1 h2
  unfold postProcessScheduleData
  rw [h1, h2]
  rfl

/-- Witness for C8: the prompt "Call me in 2 hours" at reference
2024-01-15T08:50Z (offset 0) overwrites the model's 2024-02-02 14:00 with
2024-01-15 10:50 and keeps all other fields. -/
theorem c8_relative_override_witness :
    postProcessScheduleData
      ⟨some ("reminder"), some ("Call"), some ("desc"), some ("2024-02-02"),
       some ("14:00"), some (30), some (["Sam"]), some ("office"),
       some ("high"), some ("work"), none⟩
      "Call me in 2 hours" (mkUTC 2024 1 15 8 50) 0 =
      ⟨some ("reminder"), some ("Call"), some ("desc"), some ("2024-01-15"),
       some ("10:50"), some (30), some (["Sam"]), some ("office"),
       some ("high"), some ("work"), none⟩ := by
  rw [c8_relative_override _ _ _ _ "in 2 hours" (by decide) (by decide)]
  decide

/-- Characterisation of the boolean result of `validateScheduleData`. -/
theorem validate_fst_true_iff (d : ScheduleData) :
    (validateScheduleData d).1 = true ↔
      truthy d.type = true ∧ truthy d.title = true ∧ truthy d.date = true ∧
      truthy d.time = true ∧ validTypes.contains (d.type.getD "") = true ∧
      (truthy d.priority &&
        !(validPriorities.contains (d.priority.getD ""))) = false ∧
      dateRegexTest (d.date.getD "") = true ∧
      timeRegexTest (d.time.getD "") = true := by
  unfold validateScheduleData
  split_ifs with h1 h2 h3 h4 h5 h6 h7 h8 <;> simp_all

/-- Claim C5.  The validator rejects every candidate whose `title` is
missing or empty; rejects every candidate whose `type` is present but
outside {meeting, reminder, task, appointment} (in particular
"birthday"); rejects every candidate whose `date` fails
`^\d{4}-\d{2}-\d{2}$` (in particular "01-15-2024") and every candidate
whose `time` fails `^\d{2}:\d{2}$`; and accepts every candidate with
exactly the four required fields well-formed and all optional fields
absent.  The last three conjuncts exhibit the check order with
short-circuiting: a missing `type` is reported before anything else, an
invalid `type` is reported whatever the date/time/priority hold, and the
priority check fires before the date and time patterns are consulted. -/
theorem c5_validator_checks :
    (∀ d : ScheduleData, truthy d.title = false →
        (validateScheduleData d).1 = false) ∧
    (∀ (d : ScheduleData) (t : String), d.type = some t →
        validTypes.contains t = false → (validateScheduleData d).1 = false) ∧
    (∀ (d : ScheduleData) (s : String), d.date = some s →
        dateRegexTest s = false → (validateScheduleData d).1 = false) ∧
    (∀ (d : ScheduleData) (s : String), d.time = some s →
        timeRegexTest s = false → (validateScheduleData d).1 = false) ∧
    (∀ ty ti da tm : String, validTypes.contains ty = true → ti ≠ "" →
        dateRegexTest da = true → timeRegexTest tm = true →
        validateScheduleData
          ⟨some ty, some ti, none, some da, some tm, none, none, none,
           none, none, none⟩ = (true, [])) ∧
    (∀ d : ScheduleData, truthy d.type = false →
        validateScheduleData d = (false, ["Missing required field: type"])) ∧
    (∀ (d : ScheduleData) (t : String), d.type = some t → t ≠ "" →
        truthy d.title = true → truthy d.date = true → truthy d.time = true →
        validTypes.contains t = false →
        validateScheduleData d = (false, ["Invalid type: " ++ t])) ∧
    (∀ (d : ScheduleData) (p : String), truthy d.type = true →
        truthy d.title = true → truthy d.date = true → truthy d.time = true →
        validTypes.contains (d.type.getD "") = true → d.priority = some p →
        p ≠ "" → validPriorities.contains p = false →
        validateScheduleData d = (false, ["Invalid priority: " ++ p])) := by
  refine ⟨?_, ?_, ?_, ?_, ?_, ?_, ?_, ?_⟩
  · intro d h
    cases hv : (validateScheduleData d).1
    · rfl
    · have := ((validate_fst_true_iff d).mp hv).2.1
      rw [h] at this
      cases this
  · intro d t hdt h
    cases hv : (validateScheduleData d).1
    · rfl
    · have := ((validate_fst_true_iff d).mp hv).2.2.2.2.1
      rw [hdt] at this
      simp only [Option.getD_some] at this
      rw [h] at this
      cases this
  · intro d s hds h
    cases hv : (validateScheduleData d).1
    · rfl
    · have := ((validate_fst_true_iff d).mp hv).2.2.2.2.2.2.1
      rw [hds] at this
      simp only [Option.getD_some] at this
      rw [h] at this
      cases this
  · intro d s hds h
    cases hv : (validateScheduleData d).1
    · rfl
    · have := ((validate_fst_true_iff d).mp hv).2.2.2.2.2.2.2
      rw [hds] at this
      simp only [Option.getD_some] at this
      rw [h] at this
      cases this
  · intro ty ti da tm hty hti hda htm
    have hty' : ty ≠ "" := by
      intro e
      rw [e] at hty
      exact absurd hty (by decide)
    have hda' : da ≠ "" := by
      intro e
      rw [e] at hda
      exact absurd hda (by decide)
    have htm' : tm ≠ "" := by
      intro e
      rw [e] at htm
      exact absurd htm (by decide)
    have htym : ty ∈ validTypes := by simpa using hty
    unfold validateScheduleData
    simp [truthy, hty', hti, hda', htm', htym, hda, htm]
  · intro d h
    unfold validateScheduleData
    simp [h]
  · intro d t hdt hne h2 h3 h4 h
    have h1 : truthy d.type = true := by
      rw [hdt]
      simp [truthy, hne]
    have h' : t ∉ validTypes := by simpa using h
    unfold validateScheduleData
    rw [hdt] at h1 ⊢
    simp [h1, h2, h3, h4, h']
  · intro d p h1 h2 h3 h4 h5 hdp hne h
    have hp : truthy d.priority = true := by
      rw [hdp]
      simp [truthy, hne]
    have h5' : d.type.getD "" ∈ validTypes := by simpa using h5
    have h' : p ∉ validPriorities := by simpa using h
    unfold validateScheduleData
    rw [hdp] at hp ⊢
    simp [h1, h2, h3, h4, h5', hp, h']

/-- Witness for C5 at concrete candidates: a missing title rejects, type
"birthday" rejects (with the type reason), date "01-15-2024" and time
"9:00" reject, and the minimal four-field candidate is accepted. -/
theorem c5_validator_checks_witness :
    (validateScheduleData candNoTitle).1 = false ∧
    (validateScheduleData candBirthday).1 = false ∧
    (validateScheduleData
      { candMinimal with date := some ("01-15-2024") }).1 = false ∧
    (validateScheduleData
      { candMinimal with time := some ("9:00") }).1 = false ∧
    validateScheduleData candBirthday =
      (false, ["Invalid type: birthday"]) ∧
    validateScheduleData candMinimal = (true, []) := by
  refine ⟨c5_validator_checks.1 candNoTitle (by decide),
    c5_validator_checks.2.1 candBirthday "birthday" rfl (by decide),
    c5_validator_checks.2.2.1 _ "01-15-2024" rfl (by decide),
    c5_validator_checks.2.2.2.1 _ "9:00" rfl (by decide),
    c5_validator_checks.2.2.2.2.2.2.1 candBirthday "birthday" rfl
      (by decide) (by decide) (by decide) (by decide) (by decide),
    c5_validator_checks.2.2.2.2.1 "meeting" "x" "2024-01-15" "09:00"
      (by decide) (by decide) (by decide) (by decide)⟩

/-- Claim C10.  The validator reads no optional field other than
`priority`: updating `description`, `duration`, `participants`,
`location`, `category` or `metadata` — to any values, including a zero or
negative `duration` — never changes its verdict, so every candidate that
passes the required-field, type, priority, date and time checks is
accepted whatever those six fields hold. -/
theorem c10_validator_ignores_other_optionals :
    (∀ (d : ScheduleData) (dur : Option Int) (pa : Option (List String))
        (de lo ca : Option String) (md : Option (List (String × String))),
        validateScheduleData
          { d with description := de, duration := dur, participants := pa,
                   location := lo, category := ca, metadata := md } =
          validateScheduleData d) ∧
    (∀ (d : ScheduleData) (dur : Option Int) (pa : Option (List String))
        (de lo ca : Option String) (md : Option (List (String × String))),
        (validateScheduleData d).1 = true →
        (validateScheduleData
          { d with description := de, duration := dur, participants := pa,
                   location := lo, category := ca, metadata := md }).1 =
          true) := by
  refine ⟨?_, ?_⟩
  · intro d dur pa de lo ca md
    rfl
  · intro d dur pa de lo ca md h
    exact h

/-- Witness for C10: the minimal candidate stays accepted with a negative
duration, an empty location and arbitrary other optional fields. -/
theorem c10_validator_ignores_other_optionals_witness :
    (validateScheduleData
      { candMinimal with description := some ("d"), duration := some (-30),
                         participants := some ([]), location := some (""),
                         category := some ("c"),
                         metadata := some ([("k", "v")]) }).1 = true :=
  c10_validator_ignores_other_optionals.2 candMinimal (some (-30))
    (some ([])) (some ("d")) (some ("")) (some ("c")) (some ([("k", "v")]))
    (by decide)

/-- Counterexample to claim C6: two candidates that fail validation for
different reasons (type "birthday" vs. missing title) produce identical
failure results whose error is the generic "Invalid schedule data
structure" — a message containing neither the offending value
("birthday") nor the offending field name ("title") — so the result
returned to the caller does not carry the specific failing reason; the
specific reasons only reach the internal log of the validator. -/
theorem c6_counterexample_generic_error :
    processSchedulePrompt parseStubBirthday replyBirthday "plan a party"
      (mkUTC 2024 1 15 8 50) 0 =
      ⟨false, none, some ("Invalid schedule data structure")⟩ ∧
    processSchedulePrompt parseStubNoTitle replyNoTitle "plan a meeting"
      (mkUTC 2024 1 15 8 50) 0 =
      ⟨false, none, some ("Invalid schedule data structure")⟩ ∧
    (validateScheduleData candBirthday).2 = ["Invalid type: birthday"] ∧
    (validateScheduleData candNoTitle).2 =
      ["Missing required field: title"] ∧
    containsSubstr "Invalid schedule data structure" "birthday" = false ∧
    containsSubstr "Invalid schedule data structure" "title" = false := by
  decide

/-- Claim C6 as amended: whenever the parsed candidate fails validation,
the validator records the specific failing reason in its diagnostic log,
but the failure result returned to the caller of `processSchedulePrompt`
carries only the generic message "Invalid schedule data structure". -/
theorem c6_generic_schema_error :
    ∀ (parse : String → Except String ScheduleData)
      (text userPrompt : String) (now tz : Int) (s : String)
      (d : ScheduleData),
      jsonMatch text = some s → parse s = Except.ok d →
      (validateScheduleData
        (postProcessScheduleData d userPrompt now tz)).1 = false →
      processSchedulePrompt parse text userPrompt now tz =
        ⟨false, none, some ("Invalid schedule data structure")⟩ := by
  intro parse text p now tz s d h1 h2 h3
  unfold processSchedulePrompt
  rw [h1]
  simp [h2, h3]

/-- Witness for amended C6 at the "birthday" reply. -/
theorem c6_generic_schema_error_witness :
    processSchedulePrompt parseStubBirthday replyBirthday "plan a party"
      (mkUTC 2024 1 15 8 50) 0 =
      ⟨false, none, some ("Invalid schedule data structure")⟩ :=
  c6_generic_schema_error parseStubBirthday replyBirthday "plan a party"
    (mkUTC 2024 1 15 8 50) 0 replyBirthday candBirthday (by decide)
    (by rfl) (by decide)

/-- `takeToLast` returns `none` exactly when the input has no closing
bracket. -/
theorem takeToLast_eq_none_iff (l : List Char) :
    takeToLast l = none ↔ rbrace ∉ l := by
  induction l with
  | nil => simp [takeToLast]
  | cons c cs ih =>
    unfold takeToLast
    cases h : takeToLast cs with
    | some t =>
      have hm : rbrace ∈ cs := by
        by_contra hn
        rw [ih.mpr hn] at h
        cases h
      simp [hm]
    | none =>
      by_cases hc : c = rbrace
      · subst hc
        simp
      · simp [hc, ih.mp h, List.mem_cons, eq_comm]

/-- When the text has no opening bracket strictly before a closing
bracket, the source's pattern finds no span. -/
theorem jsonMatchL_eq_none_of_no_pair (l : List Char)
    (h : ¬ hasBracePair l) : jsonMatchL l = none := by
  induction l with
  | nil => rfl
  | cons c cs ih =>
    unfold jsonMatchL
    by_cases hc : c = lbrace
    · rw [if_pos hc]
      have hnr : rbrace ∉ cs := by
        intro hm
        obtain ⟨k, hk⟩ := List.get?_of_mem hm
        exact h ⟨0, k + 1, Nat.succ_pos k, by simp [hc], hk⟩
      rw [(takeToLast_eq_none_iff cs).mpr hnr]
      rfl
    · rw [if_neg hc]
      apply ih
      rintro ⟨i, j, hij, hi, hj⟩
      exact h ⟨i + 1, j + 1, Nat.succ_lt_succ hij, hi, hj⟩

/-- Counterexample to claim C7: on a reply holding a well-formed object
followed by further text with a second object, the source's greedy
pattern matches the span from the first opening to the *last* closing
bracket — both objects and the text between them — not the first balanced
object, and the call fails even though the first object alone would have
parsed (the parse stub accepts exactly that first object). -/
theorem c7_counterexample_greedy_span :
    jsonMatch replyTwoObjects = some ("\x7b\"a\":1\x7d and \x7b\"b\":2\x7d") ∧
    firstBalancedSpan replyTwoObjects = some ("\x7b\"a\":1\x7d") ∧
    jsonMatch replyTwoObjects ≠ firstBalancedSpan replyTwoObjects ∧
    (processSchedulePrompt parseStubTwoObjects replyTwoObjects "schedule it"
      (mkUTC 2024 1 15 8 50) 0).success = false ∧
    parseStubTwoObjects "\x7b\"a\":1\x7d" = Except.ok candMinimal := by
  refine ⟨by decide, by decide, by decide, by decide, by rfl⟩

/-- Claim C7 as amended: `processSchedulePrompt` hands the parser the
greedy span from the reply's first opening bracket to its last closing
bracket.  When no further closing bracket follows the first balanced
object — e.g. a single object wrapped in prose — that span *is* the first
balanced object; when a second object follows, the span covers both (see
the counterexample).  When the reply has no opening bracket followed by a
closing bracket, the call fails with the no-structured-reply error. -/
theorem c7_span_extraction :
    (∀ (parse : String → Except String ScheduleData)
        (text userPrompt : String) (now tz : Int),
        ¬ hasBracePair text.toList →
        processSchedulePrompt parse text userPrompt now tz =
          ⟨false, none, some ("No valid JSON found in AI response")⟩) ∧
    jsonMatch "Sure! \x7b\"type\":\"reminder\",\"title\":\"Call Sarah\"\x7d" =
      some ("\x7b\"type\":\"reminder\",\"title\":\"Call Sarah\"\x7d") ∧
    jsonMatch "Sure! \x7b\"type\":\"reminder\",\"title\":\"Call Sarah\"\x7d" =
      firstBalancedSpan
        "Sure! \x7b\"type\":\"reminder\",\"title\":\"Call Sarah\"\x7d" := by
  refine ⟨?_, by decide, by decide⟩
  intro parse text userPrompt now tz h
  have hm : jsonMatch text = none := by
    unfold jsonMatch
    rw [jsonMatchL_eq_none_of_no_pair text.toList h]
    rfl
  unfold processSchedulePrompt
  rw [hm]

/-- Witness for amended C7 at a reply with no object-shaped substring. -/
theorem c7_span_extraction_witness :
    processSchedulePrompt parseStubBirthday "no structured reply" "p" 0 0 =
      ⟨false, none, some ("No valid JSON found in AI response")⟩ :=
  c7_span_extraction.1 parseStubBirthday "no structured reply" "p" 0 0
    (by
      rintro ⟨i, j, hij, hi, hj⟩
      exact absurd (List.get?_mem hi) (by decide))
